import Mathlib

/-!
# Verification of the soil-advisory backend (`web_agent.py`)

Shallow embedding of the single source file `web_agent.py` of the
`soil-ai` repository, together with theorems settling the frozen claims
about it.

Modelling conventions:
* Python floats are modelled by exact rationals (`ℚ`); `round(x, 1)` is
  modelled by `round1` below (round to one decimal place).
* `random.choice(CLASS_NAMES)` is modelled by an explicit oracle index
  `rng : Fin 5` selecting an element of `CLASS_NAMES`.
* Flask endpoints become pure functions that take the current value of the
  process-wide mutable slot `GLOBAL_HISTORICAL_ANALYSIS` and return the
  response together with the slot's new value.
* Formatted report/message text (Arabic template strings, timestamps) is
  not reproduced character-for-character; the numeric figures embedded in
  the text are modelled as a record, and the "missing crop" error string is
  modelled as a distinguished constructor.
-/

namespace SoilAgent

/-- One value of the `CROP_PROPERTIES` dict: the Python entry
`name: [water_need, cost_ratio, profit_ratio, yield_per_ha]`. -/
structure CropProp where
  name : String
  water_need : ℚ
  cost_ratio : ℚ
  profit_ratio : ℚ
  yield_per_ha : ℚ
  deriving DecidableEq, Repr

/-- `CLASS_NAMES` from the source. -/
def CLASS_NAMES : List String :=
  ["Alluvial_Soil", "Black_Soil", "Laterite_Soil", "Red_Soil", "Yellow_Soil"]

/-- `CROP_PROPERTIES` from the source, in dict insertion order. -/
def CROP_PROPERTIES : List CropProp :=
  [⟨"تمر", 4/10, 7/10, 9/10, 8000⟩,
   ⟨"عنب", 6/10, 5/10, 7/10, 15000⟩,
   ⟨"طماطم", 9/10, 6/10, 8/10, 40000⟩,
   ⟨"بطاطا", 7/10, 5/10, 6/10, 25000⟩,
   ⟨"قمح_صلب", 5/10, 3/10, 5/10, 3000⟩,
   ⟨"شعير", 4/10, 3/10, 4/10, 3500⟩,
   ⟨"زيتون", 3/10, 7/10, 8/10, 10000⟩,
   ⟨"بقوليات", 5/10, 4/10, 6/10, 1500⟩,
   ⟨"بطيخ", 7/10, 5/10, 7/10, 30000⟩]

/-- `BASE_COSTS_PER_HA` from the source. -/
def BASE_COSTS_PER_HA : List (String × ℚ) :=
  [("seed_dzd", 50000), ("water_dzd", 70000), ("fertilizer_dzd", 40000),
   ("pesticide_dzd", 20000), ("labor_dzd", 120000)]

/-- `PRICE_PER_KG_DZD` from the source. -/
def PRICE_PER_KG_DZD : List (String × ℚ) :=
  [("تمر", 450), ("عنب", 200), ("طماطم", 80), ("بطاطا", 60),
   ("قمح_صلب", 50), ("شعير", 40), ("زيتون", 350), ("بقوليات", 150), ("بطيخ", 70)]

/-- `WATER_NEED_M3_HA` from the source. -/
def WATER_NEED_M3_HA : List (String × ℚ) :=
  [("تمر", 5000), ("عنب", 6500), ("طماطم", 9000), ("بطاطا", 7500),
   ("قمح_صلب", 4500), ("شعير", 4000), ("زيتون", 3000), ("بقوليات", 5500), ("بطيخ", 7000)]

/-- `PREF_OPTIONS_MAP` from the source: Arabic option label → internal tag. -/
def PREF_OPTIONS_MAP : List (String × String) :=
  [("زيادة الأرباح المالية", "high_profit"),
   ("استهلاك ماء منخفض", "low_water"),
   ("تحسين كفاءة الأداء", "improve_efficiency"),
   ("لا شيء (معايير عامة)", "none")]

/-- The `GLOBAL_HISTORICAL_ANALYSIS` dict (when set): the fields
`previous_crop` and `water_efficiency_ratio`.  The derived `message`
string is formatted text and is elided. -/
structure HistoricalAnalysis where
  previous_crop : Option String
  water_efficiency_ratio : ℚ
  deriving DecidableEq, Repr

/-- One element of the list returned by `determine_suitability`:
the Python dict `{'crop': ..., 'score': ...}`. -/
structure SuitabilityEntry where
  crop : String
  score : ℚ
  deriving DecidableEq, Repr

/-- Python `str.lower()` (ASCII case folding, as in the identifiers and
labels this program compares). -/
def lowerChars (l : List Char) : List Char :=
  l.map Char.toLower

/-- Python `str.strip()`: drop leading and trailing whitespace. -/
def trimChars (l : List Char) : List Char :=
  ((l.dropWhile Char.isWhitespace).reverse.dropWhile Char.isWhitespace).reverse

/-- Python `str.split(',')`: always at least one (possibly empty) group. -/
def splitComma : List Char → List (List Char)
  | [] => [[]]
  | c :: t =>
    if c = ',' then [] :: splitComma t
    else
      match splitComma t with
      | [] => [[c]]
      | h :: r => (c :: h) :: r

/-- Decidable substring test (`needle in hay` on Python strings):
`needle` is a prefix of some suffix of `hay`. -/
def containsSub (hay needle : List Char) : Bool :=
  match hay with
  | [] => needle.isEmpty
  | _ :: t => needle.isPrefixOf hay || containsSub t needle

/-- `random.choice(CLASS_NAMES)`, with the random draw supplied as an
explicit oracle index. -/
def randChoice (rng : Fin 5) : String :=
  CLASS_NAMES.get ⟨rng.1, rng.isLt⟩

/-- `predict_soil_type` from the source.  `image_path = none` models Python
`None`; `some ""` is also falsy in Python, hence also draws at random. -/
def predict_soil_type (image_path : Option String) (rng : Fin 5) : String :=
  match image_path with
  | none => randChoice rng
  | some s =>
    if s = "" then randChoice rng
    else
      let name_lower := lowerChars s.data
      if containsSub name_lower "red".data then "Red_Soil"
      else if containsSub name_lower "black".data then "Black_Soil"
      else if containsSub name_lower "alluvial".data then "Alluvial_Soil"
      else if containsSub name_lower "yellow".data then "Yellow_Soil"
      else if containsSub name_lower "laterite".data then "Laterite_Soil"
      else randChoice rng

/-- The list comprehension
`[c.strip().lower() for c in prev_crops_str.split(',') if c.strip()]`. -/
def parsePrevCrops (prev_crops_str : String) : List (List Char) :=
  ((splitComma prev_crops_str.data).filter (fun c => !(trimChars c).isEmpty)).map
    (fun c => lowerChars (trimChars c))

/-- The `SOIL_BONUS` table defined inside `determine_suitability`. -/
def SOIL_BONUS : List (String × List (String × ℚ)) :=
  [("Alluvial_Soil", [("تمر", 12/10), ("قمح_صلب", 11/10), ("طماطم", 105/100)]),
   ("Black_Soil", [("قمح_صلب", 115/100), ("بطاطا", 11/10), ("بطيخ", 1)]),
   ("Laterite_Soil", [("زيتون", 12/10), ("عنب", 11/10), ("تمر", 1)]),
   ("Red_Soil", [("بطاطا", 105/100), ("طماطم", 11/10), ("قمح_صلب", 1)]),
   ("Yellow_Soil", [("بقوليات", 115/100), ("شعير", 11/10), ("عنب", 1)])]

/-- `SOIL_BONUS.get(soil_type, {}).get(crop, 1.0)`. -/
def soilBonus (soil_type crop : String) : ℚ :=
  (((SOIL_BONUS.lookup soil_type).getD []).lookup crop).getD 1

/-- The per-crop multiplier pipeline of `determine_suitability`: the value
of the Python variable `base_score` just before `* 80 + 10` (soil bonus,
preference adjustment, rotation penalty and desired-crop boost applied). -/
def cropBase (soil_type : String) (prev_crops : List (List Char))
    (farmer_pref desired_crop : String)
    (historical_analysis : Option HistoricalAnalysis) (p : CropProp) : ℚ :=
  let base1 := p.profit_ratio * (4/10) + (1 - p.water_need) * (3/10) +
    (1 - p.cost_ratio) * (3/10)
  let base2 := base1 * soilBonus soil_type p.name
  let base3 :=
    if farmer_pref = "high_profit" then base2 * (1 + p.profit_ratio * (3/10))
    else if farmer_pref = "low_water" then base2 * (1 + (1 - p.water_need) * (3/10))
    else if farmer_pref = "improve_efficiency" then
      match historical_analysis with
      | some h => base2 * (1 + h.water_efficiency_ratio * (5/100))
      | none => base2
    else base2
  let base4 := if lowerChars p.name.data ∈ prev_crops then base3 * (8/10) else base3
  if desired_crop ≠ "" ∧
      trimChars (lowerChars p.name.data) = trimChars (lowerChars desired_crop.data) then
    base4 * (13/10)
  else base4

/-- Python `round(x, 1)`: round to one decimal place. -/
def round1 (q : ℚ) : ℚ :=
  ((round (q * 10) : ℤ) : ℚ) / 10

/-- `min(100, max(0, base_score * 80 + 10))` followed by `round(·, 1)`:
the score recorded for one crop. -/
def finalScore (soil_type : String) (prev_crops : List (List Char))
    (farmer_pref desired_crop : String)
    (historical_analysis : Option HistoricalAnalysis) (p : CropProp) : ℚ :=
  round1 (min 100 (max 0
    (cropBase soil_type prev_crops farmer_pref desired_crop historical_analysis p
      * 80 + 10)))

/-- The unsorted list built by the `for crop, prop in CROP_PROPERTIES.items()`
loop of `determine_suitability`. -/
def scoreEntries (soil_type : String) (prev_crops_str farmer_pref desired_crop : String)
    (historical_analysis : Option HistoricalAnalysis) : List SuitabilityEntry :=
  CROP_PROPERTIES.map (fun p =>
    ⟨p.name, finalScore soil_type (parsePrevCrops prev_crops_str) farmer_pref
      desired_crop historical_analysis p⟩)

/-- The comparison used by
`suitability_scores.sort(key=lambda x: x['score'], reverse=True)`:
a stable sort that puts larger scores first. -/
def scoreGE (a b : SuitabilityEntry) : Bool :=
  decide (b.score ≤ a.score)

/-- `determine_suitability` from the source.  `area_sqm` is accepted (the
source computes an unused `area_ha` from it) but does not influence the
result. -/
def determine_suitability (soil_type : String) (area_sqm : ℚ)
    (prev_crops_str farmer_pref desired_crop : String)
    (historical_analysis : Option HistoricalAnalysis) : List SuitabilityEntry :=
  let _area_ha := area_sqm / 10000
  (scoreEntries soil_type prev_crops_str farmer_pref desired_crop
    historical_analysis).mergeSort scoreGE

/-- The numeric figures embedded in the report text produced by
`generate_detailed_report`. -/
structure ReportFigures where
  current_score : ℚ
  total_cost : ℚ
  expected_yield : ℚ
  total_revenue : ℚ
  net_profit : ℚ
  water_need_m3 : ℚ
  deriving DecidableEq, Repr

/-- Result of `generate_detailed_report`: either the Arabic
"no detailed data for the selected crop" error string, or the report text,
abstracted to the numeric figures it embeds. -/
inductive ReportResult where
  | missingCropError
  | figures (f : ReportFigures)
  deriving DecidableEq, Repr

/-- `generate_detailed_report` from the source.  `soil_type` and
`location_name` only affect elided text, never the figures. -/
def generate_detailed_report (selected_crop : String) (area_sqm : ℚ)
    (soil_type location_name : Option String)
    (recommendations : List SuitabilityEntry)
    (historical_analysis : Option HistoricalAnalysis) : ReportResult :=
  let _ := soil_type
  let _ := location_name
  let _ := historical_analysis
  let area_ha := area_sqm / 10000
  let current_score :=
    (((recommendations.find? (fun r => r.crop == selected_crop)).map
      (fun r => r.score)).getD 0)
  match CROP_PROPERTIES.find? (fun p => p.name == selected_crop) with
  | none => .missingCropError
  | some details =>
    let base_cost_per_ha := (BASE_COSTS_PER_HA.map Prod.snd).sum
    let total_cost := base_cost_per_ha * area_ha
    let expected_yield := details.yield_per_ha * area_ha
    let price_per_kg := (PRICE_PER_KG_DZD.lookup selected_crop).getD 100
    let total_revenue := expected_yield * price_per_kg
    let net_profit := total_revenue - total_cost
    let water_need_m3 := ((WATER_NEED_M3_HA.lookup selected_crop).getD 5000) * area_ha
    .figures ⟨current_score, total_cost, expected_yield, total_revenue,
      net_profit, water_need_m3⟩

/-- Response of `POST /api/analyze_soil` (success payload only; the generic
500 handler is unreachable in this model since inputs are already parsed). -/
structure AnalyzeSoilResponse where
  soil_type : String
  recommendations : List SuitabilityEntry
  deriving DecidableEq, Repr

/-- `api_analyze_soil` from the source, as a function of the request fields
and of the current `GLOBAL_HISTORICAL_ANALYSIS` slot; returns the response
and the new slot value.  Note the raw `farmer_pref` string from the request
is handed to `determine_suitability` unchanged. -/
def api_analyze_soil (image_path : Option String) (rng : Fin 5) (area_sqm : ℚ)
    (prev_crops_str farmer_pref desired_crop : String)
    (slot : Option HistoricalAnalysis) :
    AnalyzeSoilResponse × Option HistoricalAnalysis :=
  let soil_type := predict_soil_type image_path rng
  (⟨soil_type,
    determine_suitability soil_type area_sqm prev_crops_str farmer_pref
      desired_crop slot⟩, slot)

/-- Response of `POST /api/generate_plan`. -/
inductive PlanResponse where
  | invalidCrop
  | planOk (report : ReportResult)
  deriving DecidableEq, Repr

/-- `api_generate_plan` from the source.  `not selected_crop` is true in
Python for both a missing field and the empty string. -/
def api_generate_plan (selected_crop : Option String) (area_sqm : ℚ)
    (soil_type location_name : Option String)
    (recommendations : List SuitabilityEntry)
    (slot : Option HistoricalAnalysis) :
    PlanResponse × Option HistoricalAnalysis :=
  match selected_crop with
  | none => (.invalidCrop, slot)
  | some s =>
    if s = "" ∨ CROP_PROPERTIES.find? (fun p => p.name == s) = none then
      (.invalidCrop, slot)
    else
      (.planOk (generate_detailed_report s area_sqm soil_type location_name
        recommendations slot), slot)

/-- Response of `POST /api/analyze_historical`: success with the stored
analysis, the 400 validation error, or the generic 500 handler (reached
when `area_sqm = 0` makes `actual_yield / area_ha` raise
`ZeroDivisionError`). -/
inductive HistResponse where
  | ok (analysis : HistoricalAnalysis)
  | validationError
  | caughtException
  deriving DecidableEq, Repr

/-- `api_analyze_historical` from the source, as a function of the request
fields and the current slot; returns the response and the new slot value. -/
def api_analyze_historical (actual_yield area_sqm actual_water : ℚ)
    (crop : Option String) (slot : Option HistoricalAnalysis) :
    HistResponse × Option HistoricalAnalysis :=
  if actual_water ≤ 0 then (.validationError, slot)
  else if actual_yield ≤ 0 then (.validationError, slot)
  else if area_sqm = 0 then (.caughtException, slot)
  else
    let area_ha := area_sqm / 10000
    let water_efficiency_ratio := (actual_yield / area_ha) / actual_water
    let h : HistoricalAnalysis := ⟨crop, water_efficiency_ratio⟩
    (.ok h, some h)

/-! ## Helper lemmas -/

/-- Every catalog crop name is nonempty. -/
lemma catalog_name_ne_empty : ∀ p ∈ CROP_PROPERTIES, p.name ≠ "" := by decide

/-- Every catalog crop name is still nonempty after lower-casing and
trimming. -/
lemma catalog_name_trim_ne_nil :
    ∀ p ∈ CROP_PROPERTIES, trimChars (lowerChars p.name.data) ≠ [] := by decide

/-- `round` is monotone. -/
lemma round_mono_rat {x y : ℚ} (h : x ≤ y) : round x ≤ round y := by
  rw [round_eq, round_eq]
  exact Int.floor_le_floor (by linarith)

/-- `round1` is monotone. -/
lemma round1_mono {x y : ℚ} (h : x ≤ y) : round1 x ≤ round1 y := by
  unfold round1
  have h : round (x * 10) ≤ round (y * 10) := round_mono_rat (by linarith)
  have hc : ((round (x * 10) : ℤ) : ℚ) ≤ ((round (y * 10) : ℤ) : ℚ) := by exact_mod_cast h
  linarith

/-- A gap of at least a tenth forces strictly different rounded values. -/
lemma round1_lt_round1 {x y : ℚ} (h : x + 1/10 ≤ y) : round1 x < round1 y := by
  unfold round1
  have h1 : x * 10 + 1 ≤ y * 10 := by linarith
  have h2 : round (x * 10) + 1 ≤ round (y * 10) := by
    calc round (x * 10) + 1 = round (x * 10 + 1) := (round_add_one _).symm
    _ ≤ round (y * 10) := round_mono_rat h1
  have : (round (x * 10) : ℚ) < (round (y * 10) : ℚ) := by exact_mod_cast h2
  linarith

/-- The sort comparison is transitive. -/
lemma scoreGE_trans : ∀ a b c : SuitabilityEntry,
    scoreGE a b → scoreGE b c → scoreGE a c := by
  intro a b c hab hbc
  simp only [scoreGE, decide_eq_true_eq] at *
  exact le_trans hbc hab

/-- The sort comparison is total. -/
lemma scoreGE_total : ∀ a b : SuitabilityEntry, scoreGE a b || scoreGE b a := by
  intro a b
  simp only [scoreGE, Bool.or_eq_true, decide_eq_true_eq]
  exact le_total b.score a.score

/-- Membership in the scorer's output is membership in the unsorted
per-crop score list. -/
lemma mem_determine_suitability {e : SuitabilityEntry} {soil_type : String}
    {area_sqm : ℚ} {prev_crops_str farmer_pref desired_crop : String}
    {historical_analysis : Option HistoricalAnalysis} :
    e ∈ determine_suitability soil_type area_sqm prev_crops_str farmer_pref
        desired_crop historical_analysis ↔
      e ∈ scoreEntries soil_type prev_crops_str farmer_pref desired_crop
        historical_analysis := by
  unfold determine_suitability
  exact List.mem_mergeSort

/-- Choosing the crop itself as the desired crop multiplies its pre-scaling
base by 13/10 relative to an empty desired crop. -/
lemma cropBase_desired_self {soil_type : String} {prev_crops : List (List Char)}
    {farmer_pref : String} {historical_analysis : Option HistoricalAnalysis}
    {p : CropProp} (hne : p.name ≠ "") :
    cropBase soil_type prev_crops farmer_pref p.name historical_analysis p =
      (13/10) * cropBase soil_type prev_crops farmer_pref "" historical_analysis p := by
  simp only [cropBase]
  have h1 : ¬ (("" : String) ≠ "" ∧
      trimChars (lowerChars p.name.data) = trimChars (lowerChars "".data)) := by
    rintro ⟨h, -⟩; exact h rfl
  rw [if_pos ⟨hne, by trivial⟩, if_neg h1]
  ring

/-- Listing the crop in the previous-crops list multiplies its pre-scaling
base by 8/10 relative to a list not containing it. -/
lemma cropBase_prev_mem {soil_type : String} {L₁ L₂ : List (List Char)}
    {farmer_pref desired_crop : String}
    {historical_analysis : Option HistoricalAnalysis} {p : CropProp}
    (hn : lowerChars p.name.data ∉ L₁) (hy : lowerChars p.name.data ∈ L₂) :
    cropBase soil_type L₂ farmer_pref desired_crop historical_analysis p =
      (8/10) * cropBase soil_type L₁ farmer_pref desired_crop historical_analysis p := by
  simp only [cropBase]
  rw [if_pos hy, if_neg hn]
  split <;> ring

/-- A preference string that is none of the three internal tags scores like
the tag `none`. -/
lemma cropBase_pref_other {soil_type : String} {prev_crops : List (List Char)}
    {farmer_pref desired_crop : String}
    {historical_analysis : Option HistoricalAnalysis} {p : CropProp}
    (h1 : farmer_pref ≠ "high_profit") (h2 : farmer_pref ≠ "low_water")
    (h3 : farmer_pref ≠ "improve_efficiency") :
    cropBase soil_type prev_crops farmer_pref desired_crop historical_analysis p =
      cropBase soil_type prev_crops "none" desired_crop historical_analysis p := by
  simp only [cropBase]
  rw [if_neg h1, if_neg h2, if_neg h3]
  simp

/-- Looking a catalog crop's name up in the catalog returns that crop
(crop names are distinct). -/
lemma find?_catalog : ∀ p ∈ CROP_PROPERTIES,
    CROP_PROPERTIES.find? (fun q => q.name == p.name) = some p := by
  intro p hp
  fin_cases hp <;> rfl

/-! ## Claim theorems -/

/-- C6 (amended): `analyze_historical` returns a 400 validation error
whenever `actual_water ≤ 0` or `actual_yield ≤ 0`, leaving the slot
unchanged; with positive water and yield and a nonzero area it computes
`water_efficiency_ratio = (actual_yield / (area_sqm/10000)) / actual_water`
and overwrites the shared slot with it.  (With `area_sqm = 0` the division
raises a caught `ZeroDivisionError` and the endpoint answers 500 without
touching the slot; see the counterexample.) -/
theorem C6_analyze_historical_update (y a w : ℚ) (c : Option String)
    (slot : Option HistoricalAnalysis) :
    ((w ≤ 0 ∨ y ≤ 0) →
      api_analyze_historical y a w c slot = (.validationError, slot)) ∧
    (0 < w → 0 < y → a ≠ 0 →
      api_analyze_historical y a w c slot =
        (.ok ⟨c, (y / (a / 10000)) / w⟩, some ⟨c, (y / (a / 10000)) / w⟩)) := by
  constructor
  · rintro (h | h) <;> unfold api_analyze_historical
    · rw [if_pos h]
    · by_cases hw : w ≤ 0
      · rw [if_pos hw]
      · rw [if_neg hw, if_pos h]
  · intro hw hy ha
    unfold api_analyze_historical
    rw [if_neg (by linarith), if_neg (by linarith), if_neg ha]

/-- C6 witness: the spec's worked example, `actual_yield = 2000`,
`area_sqm = 10000`, `actual_water = 1000` gives ratio `2.0` and overwrites
the slot. -/
theorem C6_witness :
    api_analyze_historical 2000 10000 1000 (some "X") none =
      (.ok ⟨some "X", 2⟩, some ⟨some "X", 2⟩) := by
  have h := (C6_analyze_historical_update 2000 10000 1000 (some "X") none).2
    (by norm_num) (by norm_num) (by norm_num)
  rw [h]
  norm_num

/-- C6 counterexample: with `actual_yield = 2000 > 0`,
`actual_water = 1000 > 0` but `area_sqm = 0`, the code does not compute a
ratio and does not overwrite the slot — `actual_yield / area_ha` raises
`ZeroDivisionError`, the generic handler answers 500, and the slot stays
`none` —, contrary to the claim's "otherwise computes ... and overwrites". -/
theorem C6_counterexample :
    (0 : ℚ) < 2000 ∧ (0 : ℚ) < 1000 ∧
    api_analyze_historical 2000 0 1000 (some "X") none = (.caughtException, none) := by
  refine ⟨by norm_num, by norm_num, ?_⟩
  unfold api_analyze_historical
  rw [if_neg (by norm_num), if_neg (by norm_num), if_pos rfl]

/-- C7: a `generate_plan` request whose `selected_crop` is missing (or is
the falsy empty string) or names no catalog crop is answered with the 400
`invalidCrop` error — never a report, and no exception escapes (the model
is a total function). -/
theorem C7_generate_plan_unknown_crop (sel : Option String) (area_sqm : ℚ)
    (soil_type location_name : Option String)
    (recommendations : List SuitabilityEntry) (slot : Option HistoricalAnalysis)
    (h : ∀ p ∈ CROP_PROPERTIES, sel ≠ some p.name) :
    api_generate_plan sel area_sqm soil_type location_name recommendations slot =
      (.invalidCrop, slot) := by
  match sel with
  | none => rfl
  | some s =>
    have hf : CROP_PROPERTIES.find? (fun p => p.name == s) = none := by
      rw [List.find?_eq_none]
      intro p hp hbeq
      have hps : p.name = s := eq_of_beq hbeq
      exact h p hp (by rw [hps])
    simp only [api_generate_plan]
    rw [if_pos (Or.inr hf)]

/-- C7 witness: `selected_crop = "rice"` is not in the catalog and is
rejected with the 400 error. -/
theorem C7_witness :
    api_generate_plan (some "rice") 10000 none none [] none =
      (.invalidCrop, none) :=
  C7_generate_plan_unknown_crop (some "rice") 10000 none none [] none (by decide)

/-- C10: the shared `GLOBAL_HISTORICAL_ANALYSIS` slot is left unchanged by
`analyze_soil` and `generate_plan` (they only read it), and by any
`analyze_historical` call that fails validation (`actual_water ≤ 0` or
`actual_yield ≤ 0`) or hits the caught `ZeroDivisionError`
(`area_sqm = 0`). -/
theorem C10_slot_only_written_on_success (image_path : Option String)
    (rng : Fin 5) (area_sqm : ℚ) (prev_crops_str farmer_pref desired_crop : String)
    (sel : Option String) (area' : ℚ) (soil_type location_name : Option String)
    (recommendations : List SuitabilityEntry) (y a w : ℚ) (c : Option String)
    (slot : Option HistoricalAnalysis) :
    (api_analyze_soil image_path rng area_sqm prev_crops_str farmer_pref
        desired_crop slot).2 = slot ∧
    (api_generate_plan sel area' soil_type location_name recommendations slot).2
      = slot ∧
    ((w ≤ 0 ∨ y ≤ 0 ∨ a = 0) → (api_analyze_historical y a w c slot).2 = slot) := by
  refine ⟨rfl, ?_, ?_⟩
  · rcases sel with _ | s
    · rfl
    · simp only [api_generate_plan]
      split <;> rfl
  · intro h
    unfold api_analyze_historical
    by_cases hw : w ≤ 0
    · rw [if_pos hw]
    · rw [if_neg hw]
      by_cases hy : y ≤ 0
      · rw [if_pos hy]
      · rw [if_neg hy]
        have ha : a = 0 := by
          rcases h with h | h | h
          · exact absurd h hw
          · exact absurd h hy
          · exact h
        rw [if_pos ha]

/-- C10 witness: concrete reads leave a populated slot in place, and a
failing `analyze_historical` (zero area) leaves it in place too. -/
theorem C10_witness :
    (api_analyze_soil none 0 10000 "" "none" "" (some ⟨some "x", 3⟩)).2 =
      some ⟨some "x", 3⟩ ∧
    (api_generate_plan (some "تمر") 500 none none [] (some ⟨some "x", 3⟩)).2 =
      some ⟨some "x", 3⟩ ∧
    (api_analyze_historical 5 0 7 none (some ⟨some "x", 3⟩)).2 =
      some ⟨some "x", 3⟩ := by
  have h := C10_slot_only_written_on_success none 0 10000 "" "none" ""
    (some "تمر") 500 none none [] 5 0 7 none (some ⟨some "x", 3⟩)
  exact ⟨h.1, h.2.1, h.2.2 (Or.inr (Or.inr rfl))⟩

/-- C8 (amended): the soil classifier is total — it always returns one of
the 5 labels of `CLASS_NAMES`, a missing or empty path gives the random
choice, and the five substrings are checked case-insensitively in the fixed
priority order red, black, alluvial, yellow, laterite, the first match
winning; with no match the label is the random choice.  (The claim's
"contains one of the substrings → the corresponding label" fails for
strings matching two substrings; see the counterexample.) -/
theorem C8_soil_classifier_total (image_path : Option String) (rng : Fin 5) :
    predict_soil_type image_path rng ∈ CLASS_NAMES ∧
    ((image_path = none ∨ image_path = some "") →
      predict_soil_type image_path rng = randChoice rng) ∧
    ∀ s, image_path = some s → s ≠ "" →
      (containsSub (lowerChars s.data) "red".data = true →
        predict_soil_type image_path rng = "Red_Soil") ∧
      (containsSub (lowerChars s.data) "red".data = false →
        containsSub (lowerChars s.data) "black".data = true →
        predict_soil_type image_path rng = "Black_Soil") ∧
      (containsSub (lowerChars s.data) "red".data = false →
        containsSub (lowerChars s.data) "black".data = false →
        containsSub (lowerChars s.data) "alluvial".data = true →
        predict_soil_type image_path rng = "Alluvial_Soil") ∧
      (containsSub (lowerChars s.data) "red".data = false →
        containsSub (lowerChars s.data) "black".data = false →
        containsSub (lowerChars s.data) "alluvial".data = false →
        containsSub (lowerChars s.data) "yellow".data = true →
        predict_soil_type image_path rng = "Yellow_Soil") ∧
      (containsSub (lowerChars s.data) "red".data = false →
        containsSub (lowerChars s.data) "black".data = false →
        containsSub (lowerChars s.data) "alluvial".data = false →
        containsSub (lowerChars s.data) "yellow".data = false →
        containsSub (lowerChars s.data) "laterite".data = true →
        predict_soil_type image_path rng = "Laterite_Soil") ∧
      (containsSub (lowerChars s.data) "red".data = false →
        containsSub (lowerChars s.data) "black".data = false →
        containsSub (lowerChars s.data) "alluvial".data = false →
        containsSub (lowerChars s.data) "yellow".data = false →
        containsSub (lowerChars s.data) "laterite".data = false →
        predict_soil_type image_path rng = randChoice rng) := by
  refine ⟨?_, ?_, ?_⟩
  · rcases image_path with _ | s
    · exact List.get_mem _ _ _
    · simp only [predict_soil_type]
      split_ifs <;> first | exact List.get_mem _ _ _ | decide
  · rintro (rfl | rfl)
    · rfl
    · simp [predict_soil_type]
  · intro s hs hne
    subst hs
    refine ⟨?_, ?_, ?_, ?_, ?_, ?_⟩ <;>
      (intros
       simp only [predict_soil_type]
       rw [if_neg hne]
       simp_all)

/-- C8 witness: a path containing (case-insensitively) "black" and none of
the earlier substrings classifies as `Black_Soil`; no path gives the
oracle's random label. -/
theorem C8_witness :
    predict_soil_type (some "MyBlackField.png") 2 = "Black_Soil" ∧
    predict_soil_type none 2 = randChoice 2 := by
  have h := C8_soil_classifier_total (some "MyBlackField.png") 2
  have h' := C8_soil_classifier_total none 2
  exact ⟨(h.2.2 "MyBlackField.png" rfl (by decide)).2.1 (by decide) (by decide),
    h'.2.1 (Or.inl rfl)⟩

/-- C8 counterexample: "black_red" contains the substring "black", so the
claim demands the corresponding label `Black_Soil`, but the code checks
"red" first and returns `Red_Soil`. -/
theorem C8_counterexample :
    containsSub (lowerChars "black_red".data) "black".data = true ∧
    predict_soil_type (some "black_red") 0 = "Red_Soil" ∧
    ("Red_Soil" : String) ≠ "Black_Soil" :=
  ⟨by decide, by decide, by decide⟩

/-- C9: for every catalog crop and every area, the report's figures satisfy
total_cost = (50000+70000+40000+20000+120000)·(area_sqm/10000),
expected_yield = yield_per_ha·area_ha,
total_revenue = expected_yield·price_per_kg (default 100 when the crop is
absent from the price table), net_profit = total_revenue − total_cost, and
total water = water-need-table value (default 5000)·area_ha. -/
theorem C9_report_figures (p : CropProp) (hp : p ∈ CROP_PROPERTIES)
    (area_sqm : ℚ) (soil_type location_name : Option String)
    (recommendations : List SuitabilityEntry)
    (historical_analysis : Option HistoricalAnalysis) :
    generate_detailed_report p.name area_sqm soil_type location_name
        recommendations historical_analysis =
      .figures
        ⟨((recommendations.find? (fun r => r.crop == p.name)).map
            (fun r => r.score)).getD 0,
          (50000 + 70000 + 40000 + 20000 + 120000) * (area_sqm / 10000),
          p.yield_per_ha * (area_sqm / 10000),
          p.yield_per_ha * (area_sqm / 10000) *
            ((PRICE_PER_KG_DZD.lookup p.name).getD 100),
          p.yield_per_ha * (area_sqm / 10000) *
              ((PRICE_PER_KG_DZD.lookup p.name).getD 100) -
            (50000 + 70000 + 40000 + 20000 + 120000) * (area_sqm / 10000),
          ((WATER_NEED_M3_HA.lookup p.name).getD 5000) * (area_sqm / 10000)⟩ := by
  have hf := find?_catalog p hp
  simp only [generate_detailed_report, hf]
  simp only [BASE_COSTS_PER_HA, List.map_cons, List.map_nil, List.sum_cons,
    List.sum_nil]
  norm_num

/-- C9 witness: dates (`"تمر"`) on one hectare: total cost 300000 DZD
exactly, yield 8000 kg, revenue 3.6M DZD, profit 3.3M DZD, water 5000 m³. -/
theorem C9_witness :
    generate_detailed_report "تمر" 10000 none none [] none =
      .figures ⟨0, 300000, 8000, 3600000, 3300000, 5000⟩ := by
  have h := C9_report_figures ⟨"تمر", 4/10, 7/10, 9/10, 8000⟩
    (List.Mem.head _) 10000 none none [] none
  have hp1 : (PRICE_PER_KG_DZD.lookup "تمر").getD 100 = (450 : ℚ) := rfl
  have hw1 : (WATER_NEED_M3_HA.lookup "تمر").getD 5000 = (5000 : ℚ) := rfl
  rw [h]
  norm_num [hp1, hw1]

/-- C2: for a fixed soil type the scorer's output is a function of exactly
the scoring inputs (the embedding is a pure function, so determinism is
definitional), is a permutation of the per-catalog-crop score list, is
sorted in descending score order, and entries of equal score keep catalog
iteration order (for every score value, filtering the output for that score
gives exactly the corresponding filtering of the catalog-ordered list). -/
theorem C2_output_sorted_stable (soil_type : String) (area_sqm : ℚ)
    (prev_crops_str farmer_pref desired_crop : String)
    (historical_analysis : Option HistoricalAnalysis) :
    (determine_suitability soil_type area_sqm prev_crops_str farmer_pref
        desired_crop historical_analysis).Pairwise
      (fun a b => b.score ≤ a.score) ∧
    (determine_suitability soil_type area_sqm prev_crops_str farmer_pref
        desired_crop historical_analysis).Perm
      (scoreEntries soil_type prev_crops_str farmer_pref desired_crop
        historical_analysis) ∧
    ∀ s : ℚ,
      (determine_suitability soil_type area_sqm prev_crops_str farmer_pref
          desired_crop historical_analysis).filter
        (fun e => decide (e.score = s)) =
      (scoreEntries soil_type prev_crops_str farmer_pref desired_crop
          historical_analysis).filter (fun e => decide (e.score = s)) := by
  set L := scoreEntries soil_type prev_crops_str farmer_pref desired_crop
    historical_analysis with hL
  have hout : determine_suitability soil_type area_sqm prev_crops_str
      farmer_pref desired_crop historical_analysis = L.mergeSort scoreGE := rfl
  refine ⟨?_, ?_, ?_⟩
  · rw [hout]
    have h := List.sorted_mergeSort scoreGE_trans scoreGE_total L
    exact h.imp (fun hab => by simpa [scoreGE] using hab)
  · rw [hout]
    exact List.mergeSort_perm L scoreGE
  · intro s
    rw [hout]
    set p := fun e : SuitabilityEntry => decide (e.score = s) with hp
    have hmemp : ∀ a ∈ L.filter p, a.score = s := by
      intro a ha
      have := (List.mem_filter.mp ha).2
      simpa [hp] using this
    have hpw : (L.filter p).Pairwise (fun a b => scoreGE a b = true) := by
      apply List.pairwise_of_forall_mem_list
      intro a ha b hb
      simp [scoreGE, hmemp a ha, hmemp b hb]
    have hsub : List.Sublist (L.filter p) (L.mergeSort scoreGE) :=
      List.sublist_mergeSort scoreGE_trans scoreGE_total hpw (List.filter_sublist L)
    have hself : (L.filter p).filter p = L.filter p := by
      rw [List.filter_eq_self]
      intro a ha
      exact (List.mem_filter.mp ha).2
    have h1 : List.Sublist (L.filter p) ((L.mergeSort scoreGE).filter p) := by
      rw [← hself]
      exact hsub.filter p
    have hperm : ((L.mergeSort scoreGE).filter p).Perm (L.filter p) :=
      (List.mergeSort_perm L scoreGE).filter p
    exact (h1.eq_of_length hperm.length_eq.symm).symm

/-- The multiplier of claim C1's formula: base
`0.4·profit + 0.3·(1−water) + 0.3·(1−cost)`, multiplied by the soil bonus
(1.0 when absent), by exactly one preference adjustment, by 0.8 when the
crop appears in the parsed prior-crop list, and by 1.3 when it equals the
trimmed case-insensitive desired crop.  Written from the spec wording, to
be compared with the embedding's `cropBase`. -/
def specM (soil_type : String) (prev_crops : List (List Char))
    (farmer_pref desired_crop : String)
    (historical_analysis : Option HistoricalAnalysis) (p : CropProp) : ℚ :=
  let base := (4/10) * p.profit_ratio + (3/10) * (1 - p.water_need) +
    (3/10) * (1 - p.cost_ratio)
  let prefAdj : ℚ :=
    if farmer_pref = "high_profit" then 1 + (3/10) * p.profit_ratio
    else if farmer_pref = "low_water" then 1 + (3/10) * (1 - p.water_need)
    else if farmer_pref = "improve_efficiency" then
      match historical_analysis with
      | some h => 1 + (5/100) * h.water_efficiency_ratio
      | none => 1
    else 1
  let rotation : ℚ := if lowerChars p.name.data ∈ prev_crops then 8/10 else 1
  let wanted : ℚ :=
    if trimChars (lowerChars p.name.data) = trimChars (lowerChars desired_crop.data)
    then 13/10 else 1
  base * soilBonus soil_type p.name * prefAdj * rotation * wanted

/-- The suitability score exactly as claim C1 words it:
`clamp(specM·80+10, 0, 100)` rounded to one decimal.  Written from the spec
wording, to be compared with the embedding's `finalScore`. -/
def specSuitabilityScore (soil_type : String) (prev_crops : List (List Char))
    (farmer_pref desired_crop : String)
    (historical_analysis : Option HistoricalAnalysis) (p : CropProp) : ℚ :=
  round1 (min 100 (max 0
    (specM soil_type prev_crops farmer_pref desired_crop historical_analysis p
      * 80 + 10)))

/-- The claim's multiplicative factorization agrees with the source's
conditional pipeline, for any crop whose lower-cased trimmed name is
nonempty (every catalog crop). -/
lemma spec_m_eq_cropBase {soil_type : String} {prev_crops : List (List Char)}
    {farmer_pref desired_crop : String}
    {historical_analysis : Option HistoricalAnalysis} {p : CropProp}
    (hp : trimChars (lowerChars p.name.data) ≠ []) :
    specM soil_type prev_crops farmer_pref desired_crop historical_analysis p =
    cropBase soil_type prev_crops farmer_pref desired_crop historical_analysis p := by
  simp only [specM, cropBase]
  by_cases hd : desired_crop = ""
  · subst hd
    have hw : trimChars (lowerChars ("" : String).data) = [] := rfl
    have hno : ¬(("" : String) ≠ "" ∧
        trimChars (lowerChars p.name.data) = []) := by
      rintro ⟨h, -⟩
      exact h rfl
    rw [hw, if_neg hp, if_neg hno]
    cases historical_analysis <;> split_ifs <;> ring
  · have hc : (desired_crop ≠ "" ∧
        trimChars (lowerChars p.name.data) =
          trimChars (lowerChars desired_crop.data)) ↔
        trimChars (lowerChars p.name.data) =
          trimChars (lowerChars desired_crop.data) := by
      constructor
      · exact And.right
      · exact fun h => ⟨hd, h⟩
    rw [if_congr hc rfl rfl]
    cases historical_analysis <;> split_ifs <;> ring

/-- The claim-side score coincides with the embedded per-crop score. -/
lemma specScore_eq_finalScore {soil_type : String}
    {prev_crops : List (List Char)} {farmer_pref desired_crop : String}
    {historical_analysis : Option HistoricalAnalysis} {p : CropProp}
    (hp : trimChars (lowerChars p.name.data) ≠ []) :
    specSuitabilityScore soil_type prev_crops farmer_pref desired_crop
        historical_analysis p =
      finalScore soil_type prev_crops farmer_pref desired_crop
        historical_analysis p := by
  simp only [specSuitabilityScore, finalScore]
  rw [spec_m_eq_cropBase hp]

/-- C1: for every call to the scorer and every catalog crop, the output
contains the entry whose score is exactly the claim's formula
(base 0.4/0.3/0.3 weighted sum, soil bonus, one preference adjustment,
rotation penalty 0.8, desired-crop boost 1.3, clamp to [0,100] after
`·*80+10`, rounded to one decimal). -/
theorem C1_score_formula (soil_type : String) (area_sqm : ℚ)
    (prev_crops_str farmer_pref desired_crop : String)
    (historical_analysis : Option HistoricalAnalysis) (p : CropProp)
    (hp : p ∈ CROP_PROPERTIES) :
    (⟨p.name, specSuitabilityScore soil_type (parsePrevCrops prev_crops_str)
        farmer_pref desired_crop historical_analysis p⟩ : SuitabilityEntry) ∈
      determine_suitability soil_type area_sqm prev_crops_str farmer_pref
        desired_crop historical_analysis := by
  rw [mem_determine_suitability]
  refine List.mem_map.mpr ⟨p, hp, ?_⟩
  rw [specScore_eq_finalScore (catalog_name_trim_ne_nil p hp)]

/-- C1 witness: dates on alluvial soil with no preference score
0.63·1.2·80+10 = 70.48, rounded to 70.5, and that entry is in the output. -/
theorem C1_witness :
    (⟨"تمر", (705:ℚ)/10⟩ : SuitabilityEntry) ∈
      determine_suitability "Alluvial_Soil" 10000 "" "none" "" none ∧
    specSuitabilityScore "Alluvial_Soil" (parsePrevCrops "") "none" "" none
      ⟨"تمر", 4/10, 7/10, 9/10, 8000⟩ = 705/10 := by
  have hpp : parsePrevCrops "" = [] := rfl
  have hb : soilBonus "Alluvial_Soil" "تمر" = 12/10 := rfl
  have hne : trimChars (lowerChars "تمر".data) ≠
      trimChars (lowerChars ("" : String).data) := by decide
  have hs : specSuitabilityScore "Alluvial_Soil" (parsePrevCrops "") "none" ""
      none ⟨"تمر", 4/10, 7/10, 9/10, 8000⟩ = 705/10 := by
    simp only [specSuitabilityScore, specM, hpp, hb]
    rw [if_neg (by decide : ¬("none" : String) = "high_profit"),
      if_neg (by decide : ¬("none" : String) = "low_water"),
      if_neg (by decide : ¬("none" : String) = "improve_efficiency"),
      if_neg (List.not_mem_nil _), if_neg hne]
    norm_num [round1, round_eq, min_def, max_def]
  refine ⟨?_, hs⟩
  have h := C1_score_formula "Alluvial_Soil" 10000 "" "none" "" none
    ⟨"تمر", 4/10, 7/10, 9/10, 8000⟩ (List.Mem.head _)
  rw [hs] at h
  exact h

/-- A preference string equal to none of the three internal tags yields
exactly the scoring of `"none"`. -/
lemma determine_pref_other (soil_type : String) (area_sqm : ℚ)
    (prev_crops_str desired_crop : String)
    (historical_analysis : Option HistoricalAnalysis) (farmer_pref : String)
    (h1 : farmer_pref ≠ "high_profit") (h2 : farmer_pref ≠ "low_water")
    (h3 : farmer_pref ≠ "improve_efficiency") :
    determine_suitability soil_type area_sqm prev_crops_str farmer_pref
        desired_crop historical_analysis =
      determine_suitability soil_type area_sqm prev_crops_str "none"
        desired_crop historical_analysis := by
  unfold determine_suitability scoreEntries
  congr 1
  apply List.map_congr_left
  intro p _
  simp only [finalScore]
  rw [cropBase_pref_other h1 h2 h3]

/-- C3 (amended): `analyze_soil` passes the caller's preference string to
the scorer unchanged — `PREF_OPTIONS_MAP` is never consulted — so every
string other than the three internal tags `high_profit`, `low_water`,
`improve_efficiency` (including the four documented Arabic option labels)
scores identically to `"none"`. -/
theorem C3_pref_passed_raw (image_path : Option String) (rng : Fin 5)
    (area_sqm : ℚ) (prev_crops_str farmer_pref desired_crop : String)
    (slot : Option HistoricalAnalysis)
    (h1 : farmer_pref ≠ "high_profit") (h2 : farmer_pref ≠ "low_water")
    (h3 : farmer_pref ≠ "improve_efficiency") :
    api_analyze_soil image_path rng area_sqm prev_crops_str farmer_pref
        desired_crop slot =
      api_analyze_soil image_path rng area_sqm prev_crops_str "none"
        desired_crop slot := by
  simp only [api_analyze_soil]
  rw [determine_pref_other _ _ _ _ _ _ h1 h2 h3]

/-- C3 witness: the documented Arabic "increase profits" label is not an
internal tag, so the endpoint scores it exactly like `"none"`. -/
theorem C3_witness :
    api_analyze_soil (some "red") 0 10000 "" "زيادة الأرباح المالية" "" none =
      api_analyze_soil (some "red") 0 10000 "" "none" "" none :=
  C3_pref_passed_raw (some "red") 0 10000 "" "زيادة الأرباح المالية" "" none
    (by decide) (by decide) (by decide)

/-- C3 counterexample: the claim says the Arabic "increase profits" label is
translated to `high_profit` before scoring; in fact an `analyze_soil`
request carrying that label yields the untranslated (`none`-like) tomato
score 51.4, which the `high_profit` scoring does not produce (its tomato
score is 61.3). -/
theorem C3_counterexample :
    PREF_OPTIONS_MAP.lookup "زيادة الأرباح المالية" = some "high_profit" ∧
    (⟨"طماطم", (257:ℚ)/5⟩ : SuitabilityEntry) ∈
      (api_analyze_soil (some "red") 0 10000 "" "زيادة الأرباح المالية" ""
        none).1.recommendations ∧
    (⟨"طماطم", (257:ℚ)/5⟩ : SuitabilityEntry) ∉
      determine_suitability "Red_Soil" 10000 "" "high_profit" "" none := by
  have hpp : parsePrevCrops "" = [] := rfl
  have hb : soilBonus "Red_Soil" "طماطم" = 11/10 := rfl
  have hd : ¬(("" : String) ≠ "" ∧
      trimChars (lowerChars "طماطم".data) = trimChars (lowerChars ("" : String).data)) := by
    rintro ⟨h, -⟩
    exact h rfl
  have hval : finalScore "Red_Soil" (parsePrevCrops "") "high_profit" "" none
      ⟨"طماطم", 9/10, 6/10, 8/10, 40000⟩ = 613/10 := by
    simp [finalScore, cropBase, hpp, hb, hd]
    norm_num [round1, round_eq, min_def, max_def]
  refine ⟨rfl, ?_, ?_⟩
  · have hsoil : predict_soil_type (some "red") 0 = "Red_Soil" := by decide
    simp only [api_analyze_soil, hsoil]
    rw [mem_determine_suitability]
    refine List.mem_map.mpr ⟨⟨"طماطم", 9/10, 6/10, 8/10, 40000⟩,
      by exact List.Mem.tail _ (List.Mem.tail _ (List.Mem.head _)), ?_⟩
    simp [finalScore, cropBase, hpp, hb, hd]
    norm_num [round1, round_eq, min_def, max_def]
  · rw [mem_determine_suitability]
    intro hmem
    obtain ⟨q, hq, heq⟩ := List.mem_map.mp hmem
    fin_cases hq <;> simp only [SuitabilityEntry.mk.injEq] at heq <;>
      first
      | exact absurd heq.1 (by decide)
      | (rw [hval] at heq
         exact absurd heq.2 (by norm_num))

/-- C4 (amended): naming crop X as the desired crop strictly increases X's
returned score, provided the pre-scaling base is at least 1/240 (so the 30%
boost moves the value by at least one rounding step) and the boosted raw
score stays within the 100 cap.  (With only "base > 0", as the claim
states, the boost can vanish in the cap or in the one-decimal rounding; see
the counterexample.) -/
theorem C4_desired_crop_boost (soil_type : String) (area_sqm : ℚ)
    (prev_crops_str farmer_pref : String)
    (historical_analysis : Option HistoricalAnalysis) (p : CropProp)
    (hp : p ∈ CROP_PROPERTIES)
    (h1 : 1/240 ≤ cropBase soil_type (parsePrevCrops prev_crops_str)
      farmer_pref "" historical_analysis p)
    (h2 : (13/10) * cropBase soil_type (parsePrevCrops prev_crops_str)
      farmer_pref "" historical_analysis p * 80 + 10 ≤ 100) :
    (⟨p.name, finalScore soil_type (parsePrevCrops prev_crops_str) farmer_pref
        p.name historical_analysis p⟩ : SuitabilityEntry) ∈
      determine_suitability soil_type area_sqm prev_crops_str farmer_pref
        p.name historical_analysis ∧
    (⟨p.name, finalScore soil_type (parsePrevCrops prev_crops_str) farmer_pref
        "" historical_analysis p⟩ : SuitabilityEntry) ∈
      determine_suitability soil_type area_sqm prev_crops_str farmer_pref
        "" historical_analysis ∧
    finalScore soil_type (parsePrevCrops prev_crops_str) farmer_pref ""
        historical_analysis p <
      finalScore soil_type (parsePrevCrops prev_crops_str) farmer_pref p.name
        historical_analysis p := by
  refine ⟨?_, ?_, ?_⟩
  · rw [mem_determine_suitability]
    exact List.mem_map.mpr ⟨p, hp, rfl⟩
  · rw [mem_determine_suitability]
    exact List.mem_map.mpr ⟨p, hp, rfl⟩
  · set m := cropBase soil_type (parsePrevCrops prev_crops_str) farmer_pref ""
      historical_analysis p with hm
    have hfac : cropBase soil_type (parsePrevCrops prev_crops_str) farmer_pref
        p.name historical_analysis p = (13/10) * m :=
      cropBase_desired_self (catalog_name_ne_empty p hp)
    simp only [finalScore, hfac, ← hm]
    have hm0 : (0:ℚ) < m := lt_of_lt_of_le (by norm_num) h1
    have e1 : min 100 (max 0 (m * 80 + 10)) = m * 80 + 10 := by
      rw [max_eq_right (by linarith), min_eq_right (by linarith)]
    have e2 : min 100 (max 0 ((13/10) * m * 80 + 10)) = (13/10) * m * 80 + 10 := by
      rw [max_eq_right (by linarith), min_eq_right (by linarith)]
    rw [e1, e2]
    exact round1_lt_round1 (by linarith)

/-- C4 witness: dates on alluvial soil, no preference: base 0.756, score
70.5 without the desired-crop boost and 88.6 with it. -/
theorem C4_witness :
    (⟨"تمر", finalScore "Alluvial_Soil" (parsePrevCrops "") "none" "تمر" none
        ⟨"تمر", 4/10, 7/10, 9/10, 8000⟩⟩ : SuitabilityEntry) ∈
      determine_suitability "Alluvial_Soil" 10000 "" "none" "تمر" none ∧
    (⟨"تمر", finalScore "Alluvial_Soil" (parsePrevCrops "") "none" "" none
        ⟨"تمر", 4/10, 7/10, 9/10, 8000⟩⟩ : SuitabilityEntry) ∈
      determine_suitability "Alluvial_Soil" 10000 "" "none" "" none ∧
    finalScore "Alluvial_Soil" (parsePrevCrops "") "none" "" none
        ⟨"تمر", 4/10, 7/10, 9/10, 8000⟩ <
      finalScore "Alluvial_Soil" (parsePrevCrops "") "none" "تمر" none
        ⟨"تمر", 4/10, 7/10, 9/10, 8000⟩ := by
  have hpp : parsePrevCrops "" = [] := rfl
  have hb : soilBonus "Alluvial_Soil" "تمر" = 12/10 := rfl
  have hd : ¬(("" : String) ≠ "" ∧ trimChars (lowerChars "تمر".data) =
      trimChars (lowerChars ("" : String).data)) := by
    rintro ⟨h, -⟩
    exact h rfl
  have hm : cropBase "Alluvial_Soil" (parsePrevCrops "") "none" "" none
      ⟨"تمر", 4/10, 7/10, 9/10, 8000⟩ = 189/250 := by
    simp [cropBase, hpp, hb, hd]
    norm_num
  exact C4_desired_crop_boost "Alluvial_Soil" 10000 "" "none" none
    ⟨"تمر", 4/10, 7/10, 9/10, 8000⟩ (List.Mem.head _)
    (by rw [hm]; norm_num) (by rw [hm]; norm_num)

/-- C4 counterexample: under `improve_efficiency` with a stored historical
ratio of 1000, the date palm's pre-scaling base is positive (38.556), yet
the returned score is the 100 cap both with and without
`desired_crop = "تمر"` — the claimed strict increase fails. -/
theorem C4_counterexample :
    0 < cropBase "Alluvial_Soil" (parsePrevCrops "") "improve_efficiency" ""
      (some ⟨none, 1000⟩) ⟨"تمر", 4/10, 7/10, 9/10, 8000⟩ ∧
    (⟨"تمر", (100:ℚ)⟩ : SuitabilityEntry) ∈
      determine_suitability "Alluvial_Soil" 10000 "" "improve_efficiency" "تمر"
        (some ⟨none, 1000⟩) ∧
    (⟨"تمر", (100:ℚ)⟩ : SuitabilityEntry) ∈
      determine_suitability "Alluvial_Soil" 10000 "" "improve_efficiency" ""
        (some ⟨none, 1000⟩) ∧
    finalScore "Alluvial_Soil" (parsePrevCrops "") "improve_efficiency" "تمر"
        (some ⟨none, 1000⟩) ⟨"تمر", 4/10, 7/10, 9/10, 8000⟩ =
      finalScore "Alluvial_Soil" (parsePrevCrops "") "improve_efficiency" ""
        (some ⟨none, 1000⟩) ⟨"تمر", 4/10, 7/10, 9/10, 8000⟩ := by
  have hpp : parsePrevCrops "" = [] := rfl
  have hb : soilBonus "Alluvial_Soil" "تمر" = 12/10 := rfl
  have hd : ¬(("" : String) ≠ "" ∧ trimChars (lowerChars "تمر".data) =
      trimChars (lowerChars ("" : String).data)) := by
    rintro ⟨h, -⟩
    exact h rfl
  have hm : cropBase "Alluvial_Soil" (parsePrevCrops "") "improve_efficiency" ""
      (some ⟨none, 1000⟩) ⟨"تمر", 4/10, 7/10, 9/10, 8000⟩ = 9639/250 := by
    simp [cropBase, hpp, hb, hd]
    norm_num
  have hfac : cropBase "Alluvial_Soil" (parsePrevCrops "") "improve_efficiency"
      "تمر" (some ⟨none, 1000⟩) ⟨"تمر", 4/10, 7/10, 9/10, 8000⟩ =
      (13/10) * (9639/250) := by
    have h := @cropBase_desired_self "Alluvial_Soil" (parsePrevCrops "")
      "improve_efficiency" (some ⟨none, 1000⟩) ⟨"تمر", 4/10, 7/10, 9/10, 8000⟩
      (by decide)
    rw [hm] at h
    exact h
  have hs1 : finalScore "Alluvial_Soil" (parsePrevCrops "") "improve_efficiency"
      "تمر" (some ⟨none, 1000⟩) ⟨"تمر", 4/10, 7/10, 9/10, 8000⟩ = 100 := by
    simp only [finalScore, hfac]
    norm_num [round1, round_eq, min_def, max_def]
  have hs2 : finalScore "Alluvial_Soil" (parsePrevCrops "") "improve_efficiency"
      "" (some ⟨none, 1000⟩) ⟨"تمر", 4/10, 7/10, 9/10, 8000⟩ = 100 := by
    simp only [finalScore, hm]
    norm_num [round1, round_eq, min_def, max_def]
  refine ⟨by rw [hm]; norm_num, ?_, ?_, by rw [hs1, hs2]⟩
  · rw [mem_determine_suitability]
    exact List.mem_map.mpr ⟨⟨"تمر", 4/10, 7/10, 9/10, 8000⟩, List.Mem.head _,
      by rw [hs1]⟩
  · rw [mem_determine_suitability]
    exact List.mem_map.mpr ⟨⟨"تمر", 4/10, 7/10, 9/10, 8000⟩, List.Mem.head _,
      by rw [hs2]⟩

/-- C5 (amended): listing crop X among the previous crops strictly lowers
X's returned score relative to a prior-crop string that does not contain
it, provided X's unpenalized pre-scaling base is at least 1/160 (so the 20%
penalty moves the value by at least one rounding step) and the unpenalized
raw score stays within the 100 cap.  (Unconditionally, as the claim states,
the penalty can vanish in the cap; see the counterexample.) -/
theorem C5_prev_crop_penalty (soil_type : String) (area_sqm : ℚ)
    (farmer_pref desired_crop : String)
    (historical_analysis : Option HistoricalAnalysis) (p : CropProp)
    (hp : p ∈ CROP_PROPERTIES) (s₁ s₂ : String)
    (hn : lowerChars p.name.data ∉ parsePrevCrops s₁)
    (hy : lowerChars p.name.data ∈ parsePrevCrops s₂)
    (h1 : 1/160 ≤ cropBase soil_type (parsePrevCrops s₁) farmer_pref
      desired_crop historical_analysis p)
    (h2 : cropBase soil_type (parsePrevCrops s₁) farmer_pref desired_crop
      historical_analysis p * 80 + 10 ≤ 100) :
    (⟨p.name, finalScore soil_type (parsePrevCrops s₂) farmer_pref
        desired_crop historical_analysis p⟩ : SuitabilityEntry) ∈
      determine_suitability soil_type area_sqm s₂ farmer_pref desired_crop
        historical_analysis ∧
    (⟨p.name, finalScore soil_type (parsePrevCrops s₁) farmer_pref
        desired_crop historical_analysis p⟩ : SuitabilityEntry) ∈
      determine_suitability soil_type area_sqm s₁ farmer_pref desired_crop
        historical_analysis ∧
    finalScore soil_type (parsePrevCrops s₂) farmer_pref desired_crop
        historical_analysis p <
      finalScore soil_type (parsePrevCrops s₁) farmer_pref desired_crop
        historical_analysis p := by
  refine ⟨?_, ?_, ?_⟩
  · rw [mem_determine_suitability]
    exact List.mem_map.mpr ⟨p, hp, rfl⟩
  · rw [mem_determine_suitability]
    exact List.mem_map.mpr ⟨p, hp, rfl⟩
  · set m := cropBase soil_type (parsePrevCrops s₁) farmer_pref desired_crop
      historical_analysis p with hm
    have hfac : cropBase soil_type (parsePrevCrops s₂) farmer_pref
        desired_crop historical_analysis p = (8/10) * m :=
      cropBase_prev_mem hn hy
    simp only [finalScore, hfac, ← hm]
    have hm0 : (0:ℚ) < m := lt_of_lt_of_le (by norm_num) h1
    have e1 : min 100 (max 0 (m * 80 + 10)) = m * 80 + 10 := by
      rw [max_eq_right (by linarith), min_eq_right (by linarith)]
    have e2 : min 100 (max 0 ((8/10) * m * 80 + 10)) = (8/10) * m * 80 + 10 := by
      rw [max_eq_right (by linarith), min_eq_right (by linarith)]
    rw [e1, e2]
    exact round1_lt_round1 (by linarith)

/-- C5 witness: dates on alluvial soil, no preference: score 70.5 with an
empty prior-crop string, 58.4 when "تمر" is listed as a previous crop. -/
theorem C5_witness :
    (⟨"تمر", finalScore "Alluvial_Soil" (parsePrevCrops "تمر") "none" "" none
        ⟨"تمر", 4/10, 7/10, 9/10, 8000⟩⟩ : SuitabilityEntry) ∈
      determine_suitability "Alluvial_Soil" 10000 "تمر" "none" "" none ∧
    (⟨"تمر", finalScore "Alluvial_Soil" (parsePrevCrops "") "none" "" none
        ⟨"تمر", 4/10, 7/10, 9/10, 8000⟩⟩ : SuitabilityEntry) ∈
      determine_suitability "Alluvial_Soil" 10000 "" "none" "" none ∧
    finalScore "Alluvial_Soil" (parsePrevCrops "تمر") "none" "" none
        ⟨"تمر", 4/10, 7/10, 9/10, 8000⟩ <
      finalScore "Alluvial_Soil" (parsePrevCrops "") "none" "" none
        ⟨"تمر", 4/10, 7/10, 9/10, 8000⟩ := by
  have hpp : parsePrevCrops "" = [] := rfl
  have hb : soilBonus "Alluvial_Soil" "تمر" = 12/10 := rfl
  have hd : ¬(("" : String) ≠ "" ∧ trimChars (lowerChars "تمر".data) =
      trimChars (lowerChars ("" : String).data)) := by
    rintro ⟨h, -⟩
    exact h rfl
  have hm : cropBase "Alluvial_Soil" (parsePrevCrops "") "none" "" none
      ⟨"تمر", 4/10, 7/10, 9/10, 8000⟩ = 189/250 := by
    simp [cropBase, hpp, hb, hd]
    norm_num
  exact C5_prev_crop_penalty "Alluvial_Soil" 10000 "none" "" none
    ⟨"تمر", 4/10, 7/10, 9/10, 8000⟩ (List.Mem.head _) "" "تمر"
    (by decide) (by decide) (by rw [hm]; norm_num) (by rw [hm]; norm_num)

/-- C5 counterexample: under `improve_efficiency` with a stored historical
ratio of 1000, the date palm scores the 100 cap both with an empty
prior-crop string and with "تمر" listed — listing the crop does not
strictly decrease its returned score. -/
theorem C5_counterexample :
    lowerChars "تمر".data ∈ parsePrevCrops "تمر" ∧
    (⟨"تمر", (100:ℚ)⟩ : SuitabilityEntry) ∈
      determine_suitability "Alluvial_Soil" 10000 "تمر" "improve_efficiency" ""
        (some ⟨none, 1000⟩) ∧
    (⟨"تمر", (100:ℚ)⟩ : SuitabilityEntry) ∈
      determine_suitability "Alluvial_Soil" 10000 "" "improve_efficiency" ""
        (some ⟨none, 1000⟩) ∧
    finalScore "Alluvial_Soil" (parsePrevCrops "تمر") "improve_efficiency" ""
        (some ⟨none, 1000⟩) ⟨"تمر", 4/10, 7/10, 9/10, 8000⟩ =
      finalScore "Alluvial_Soil" (parsePrevCrops "") "improve_efficiency" ""
        (some ⟨none, 1000⟩) ⟨"تمر", 4/10, 7/10, 9/10, 8000⟩ := by
  have hpp : parsePrevCrops "" = [] := rfl
  have hb : soilBonus "Alluvial_Soil" "تمر" = 12/10 := rfl
  have hd : ¬(("" : String) ≠ "" ∧ trimChars (lowerChars "تمر".data) =
      trimChars (lowerChars ("" : String).data)) := by
    rintro ⟨h, -⟩
    exact h rfl
  have hm : cropBase "Alluvial_Soil" (parsePrevCrops "") "improve_efficiency" ""
      (some ⟨none, 1000⟩) ⟨"تمر", 4/10, 7/10, 9/10, 8000⟩ = 9639/250 := by
    simp [cropBase, hpp, hb, hd]
    norm_num
  have hfac : cropBase "Alluvial_Soil" (parsePrevCrops "تمر")
      "improve_efficiency" "" (some ⟨none, 1000⟩)
      ⟨"تمر", 4/10, 7/10, 9/10, 8000⟩ = (8/10) * (9639/250) := by
    have h := @cropBase_prev_mem "Alluvial_Soil" (parsePrevCrops "")
      (parsePrevCrops "تمر") "improve_efficiency" "" (some ⟨none, 1000⟩)
      ⟨"تمر", 4/10, 7/10, 9/10, 8000⟩ (by decide) (by decide)
    rw [hm] at h
    exact h
  have hs1 : finalScore "Alluvial_Soil" (parsePrevCrops "تمر")
      "improve_efficiency" "" (some ⟨none, 1000⟩)
      ⟨"تمر", 4/10, 7/10, 9/10, 8000⟩ = 100 := by
    simp only [finalScore, hfac]
    norm_num [round1, round_eq, min_def, max_def]
  have hs2 : finalScore "Alluvial_Soil" (parsePrevCrops "") "improve_efficiency"
      "" (some ⟨none, 1000⟩) ⟨"تمر", 4/10, 7/10, 9/10, 8000⟩ = 100 := by
    simp only [finalScore, hm]
    norm_num [round1, round_eq, min_def, max_def]
  refine ⟨by decide, ?_, ?_, by rw [hs1, hs2]⟩
  · rw [mem_determine_suitability]
    exact List.mem_map.mpr ⟨⟨"تمر", 4/10, 7/10, 9/10, 8000⟩, List.Mem.head _,
      by rw [hs1]⟩
  · rw [mem_determine_suitability]
    exact List.mem_map.mpr ⟨⟨"تمر", 4/10, 7/10, 9/10, 8000⟩, List.Mem.head _,
      by rw [hs2]⟩

end SoilAgent
